import Mathlib

/-!
# Verification development for the oral_algorithm core

Shallow embedding of the keyframe-extraction, anomaly-scoring, semantic
validity-gate and baseline frame-matching logic of the repository
(`app/core/keyframe_extractor.py`, `app/core/keyframe_analyzer.py`,
`app/core/frame_matcher.py`), together with theorems settling the
specification's claims about them.

Modelling conventions:
* machine floats become exact rationals (`ℚ`); all threshold comparisons in
  the source are modelled with the same constants as exact rationals;
* images are height/width plus a pixel function (B, G, R byte triples);
  `cv2.cvtColor(..., COLOR_BGR2HSV)` is modelled per-pixel from OpenCV's
  documented 8-bit formula;
* database rows become plain records; the SQLAlchemy session join that
  `frame_matcher` performs to read a baseline session's `created_at` is
  modelled by storing that timestamp on the baseline-frame record;
* logging, JPEG storage and string timestamp formatting are not modelled:
  no claim mentions them.
-/

namespace OralAlg

/- Fixed configuration from `app/config.py` (`Settings`). -/
namespace settings

def MAX_KEYFRAMES : ℕ := 25

def MIN_KEYFRAMES : ℕ := 5

def UNIFORM_SAMPLE_COUNT : ℕ := 20

def PRIORITY_FRAME_THRESHOLD : ℚ := 1/2

end settings

/-- A pixel: a triple of 8-bit channels. Read as (B, G, R) for raw frames
and as (H, S, V) after conversion. -/
abbrev Pixel := ℕ × ℕ × ℕ

/-- A decoded frame: dimensions plus pixel access (`numpy` array model). -/
structure Img where
  hgt : ℕ
  wid : ℕ
  pix : ℕ → ℕ → Pixel

/-- Model of `frame.size` of the underlying array (total pixel count). -/
def Img.size (fr : Img) : ℕ := fr.hgt * fr.wid

/-- Model of `cv2.cvtColor(frame, cv2.COLOR_BGR2HSV)` per pixel, from OpenCV's
documented 8-bit formula: V = max, S = 255·(V−min)/V (0 when V = 0),
H = hue degrees halved; rounding to nearest. -/
def bgr2hsv (p : Pixel) : Pixel :=
  let b := p.1
  let g := p.2.1
  let r := p.2.2
  let v := max b (max g r)
  let mn := min b (min g r)
  let dif := v - mn
  let s : ℕ := if v = 0 then 0 else (round ((255 * (dif : ℚ)) / (v : ℚ))).toNat
  let hdeg : ℚ :=
    if dif = 0 then 0
    else if v = r then 60 * ((g : ℚ) - (b : ℚ)) / (dif : ℚ)
    else if v = g then 120 + 60 * ((b : ℚ) - (r : ℚ)) / (dif : ℚ)
    else 240 + 60 * ((r : ℚ) - (g : ℚ)) / (dif : ℚ)
  let hdeg' : ℚ := if hdeg < 0 then hdeg + 360 else hdeg
  ((round (hdeg' / 2)).toNat, s, v)

/-- Model of `cv2.inRange(hsv, lo, hi)` test for one pixel. -/
def hsvInRange (lo hi p : Pixel) : Bool :=
  decide (lo.1 ≤ p.1 ∧ p.1 ≤ hi.1) &&
  decide (lo.2.1 ≤ p.2.1 ∧ p.2.1 ≤ hi.2.1) &&
  decide (lo.2.2 ≤ p.2.2 ∧ p.2.2 ≤ hi.2.2)

/-- Model of `np.count_nonzero(mask)` for a mask built from a per-pixel HSV test. -/
def Img.countHSV (fr : Img) (pred : Pixel → Bool) : ℕ :=
  ∑ i ∈ Finset.range fr.hgt, ∑ j ∈ Finset.range fr.wid,
    if pred (bgr2hsv (fr.pix i j)) then 1 else 0

/-- The `detail_scores` dict of `_detect_anomaly_opencv`. -/
structure DetailScores where
  dark_deposit : ℚ
  yellow_plaque : ℚ
  gum_issue : ℚ
deriving DecidableEq, Repr

/-- Round-half-to-even on rationals, Python's `round` tie rule
(the source rounds exact binary floats; we model exact rationals). -/
def roundHalfEven (q : ℚ) : ℤ :=
  if q - ⌊q⌋ < 1/2 then ⌊q⌋
  else if 1/2 < q - ⌊q⌋ then ⌊q⌋ + 1
  else if Even ⌊q⌋ then ⌊q⌋ else ⌊q⌋ + 1

/-- Separator used by `",".join(triggered_reasons)`. -/
def commaSep : String := ","

/-- Python `round(x, 3)`. -/
def pyRound3 (q : ℚ) : ℚ := (roundHalfEven (q * 1000) : ℚ) / 1000

/-- Pixel test of `mask_black` in `_detect_anomaly_opencv`:
`inRange(hsv, [0,0,0], [180,255,60])`. -/
def blackPred (p : Pixel) : Bool := hsvInRange (0, 0, 0) (180, 255, 60) p

/-- Pixel test of `mask_yellow`: `inRange(hsv, [15,40,80], [35,255,255])`. -/
def yellowPred (p : Pixel) : Bool := hsvInRange (15, 40, 80) (35, 255, 255) p

/-- Pixel test of `mask_red1 | mask_red2`:
`inRange(hsv, [0,120,50], [10,255,255])` or `inRange(hsv, [160,120,50], [180,255,255])`. -/
def redPred (p : Pixel) : Bool :=
  hsvInRange (0, 120, 50) (10, 255, 255) p || hsvInRange (160, 120, 50) (180, 255, 255) p

/-- Model of `KeyframeExtractor._detect_anomaly_opencv`: returns
(total anomaly score, detail scores, trigger reason string).
The defensive OpenCV-exception branch (`"detection_error"`) is not modelled;
pixel arithmetic is total here. -/
def detect_anomaly_opencv (fr : Img) : ℚ × DetailScores × String :=
  if fr.size = 0 then (0, ⟨0, 0, 0⟩, "unknown")
  else
    let total : ℚ := (fr.size : ℚ)
    let blackFrac : ℚ := (fr.countHSV blackPred : ℚ) / total
    let yellowFrac : ℚ := (fr.countHSV yellowPred : ℚ) / total
    let redFrac : ℚ := (fr.countHSV redPred : ℚ) / total
    let darkTerm : ℚ :=
      if 1/50 < blackFrac ∧ blackFrac < 3/10 then min (blackFrac * 4) (7/20) else 0
    let yellowTerm : ℚ :=
      if 3/200 < yellowFrac then min (yellowFrac * 5) (7/20) else 0
    let redTerm : ℚ :=
      if 2/25 < redFrac then min (redFrac * (5/2)) (3/10) else 0
    let anomaly_score : ℚ := darkTerm + yellowTerm + redTerm
    let details : DetailScores := ⟨pyRound3 darkTerm, pyRound3 yellowTerm, pyRound3 redTerm⟩
    let reasons : List String :=
      (if 1/10 < darkTerm then ["dark_deposit"] else []) ++
      (if 1/10 < yellowTerm then ["yellow_plaque"] else []) ++
      (if 1/10 < redTerm then ["gum_issue"] else [])
    let total_score : ℚ := min anomaly_score 1
    let reason_str : String :=
      if reasons ≠ [] then String.intercalate commaSep reasons
      else if 0 < total_score then "anomaly_detected"
      else "none"
    (total_score, details, reason_str)

/-!
## Keyframe extraction (`KeyframeExtractor.extract_keyframes`)
-/

/-- Modelled from the spec: the FrameSource contract (§4.1: open/getFrame/
frameCount/fps/duration, isolated corrupt frames read as absent). The
extractor and its tests call a `VideoProcessor` exposing `get_frame`,
`get_duration`, `get_frame_count`, `get_fps` and `release`; the sources only
contain a `VideoProcessor` with a different interface
(`app/utils/video.py`), so the frame source is modelled abstractly. -/
structure VideoSource where
  duration : ℚ
  total_frames : ℕ
  fps : ℚ
  get_frame : ℕ → Option Img

/-- One entry of the `priority_frames` / `uniform_frames` dicts built by
`extract_keyframes`. The pixel payload (`"image"`) and the display string
`timestamp_str` are dropped: they are only consumed by the storage /
semantic-analysis step, outside this model. -/
structure Candidate where
  frame_index : ℕ
  timestamp_val : ℚ
  score : ℚ
  strategy : String
  reason : String
deriving DecidableEq, Repr

/-- Python `range(0, stop, step)` for positive `step`. -/
def pyRange (stop step : ℕ) : List ℕ :=
  (List.range ((stop + step - 1) / step)).map (· * step)

/-- Model of `scan_interval = int(fps) if fps > 0 else 30`. -/
def scan_interval (src : VideoSource) : ℕ :=
  if 0 < src.fps then (⌊src.fps⌋).toNat else 30

/-- Track one of `extract_keyframes`: rule-triggered scan at `scan_interval`,
keeping frames whose anomaly score exceeds `PRIORITY_FRAME_THRESHOLD`. -/
def priority_track (src : VideoSource) : List Candidate :=
  (pyRange src.total_frames (scan_interval src)).filterMap fun i =>
    match src.get_frame i with
    | none => none
    | some frame =>
      let sr := detect_anomaly_opencv frame
      if settings.PRIORITY_FRAME_THRESHOLD < sr.1 then
        some { frame_index := i
               timestamp_val := if src.fps ≠ 0 then (i : ℚ) / src.fps else 0
               score := sr.1
               strategy := "rule_triggered"
               reason := sr.2.2 }
      else none

/-- Track two of `extract_keyframes`: `UNIFORM_SAMPLE_COUNT` evenly spaced
probes (skipped when within 5 frames of a priority candidate), only when
`duration > 0`. -/
def uniform_track (src : VideoSource) : List Candidate :=
  if 0 < src.duration then
    (List.range settings.UNIFORM_SAMPLE_COUNT).filterMap fun i =>
      let interval : ℚ := (src.total_frames : ℚ) / (settings.UNIFORM_SAMPLE_COUNT : ℚ)
      let idx : ℕ := (⌊(i : ℚ) * interval⌋).toNat
      if (priority_track src).any (fun pf => |(pf.frame_index : ℤ) - (idx : ℤ)| < 5) then
        none
      else
        match src.get_frame idx with
        | none => none
        | some _ =>
          some { frame_index := idx
                 timestamp_val := if src.fps ≠ 0 then (idx : ℚ) / src.fps else 0
                 score := 0
                 strategy := "uniform_sampled"
                 reason := "uniform" }
  else []

/-- Key order used by `all_candidates.sort(key=lambda x: x["frame_index"])`. -/
def candLE (a b : Candidate) : Prop := a.frame_index ≤ b.frame_index

instance : DecidableRel candLE := fun a b => Nat.decLe a.frame_index b.frame_index

instance : IsTotal Candidate candLE := ⟨fun _ _ => Nat.le_total _ _⟩

instance : IsTrans Candidate candLE := ⟨fun _ _ _ => Nat.le_trans⟩

/-- The merged, stably index-sorted candidate list (`all_candidates` after
`sort`); Python's stable `list.sort` is modelled by insertion sort. -/
def merged (src : VideoSource) : List Candidate :=
  List.insertionSort candLE (priority_track src ++ uniform_track src)

/-- The only run-level failure `extract_keyframes` can produce before the
truncation step: `range(0, n, 0)` raises `ValueError` when
`int(fps)` is zero for a positive `fps` below 1. -/
inductive ExtractError where
  | valueError
deriving DecidableEq, Repr

/-- Model of `KeyframeExtractor.extract_keyframes`, up to the returned/stored frame
set: both tracks, merge, stable sort by index, truncation to
`MAX_KEYFRAMES`. The per-frame storage and semantic-analysis loop consumes
`final_frames` without changing it and is not modelled. -/
def extract_keyframes (src : VideoSource) : Except ExtractError (List Candidate) :=
  if scan_interval src = 0 then Except.error ExtractError.valueError
  else Except.ok ((merged src).take settings.MAX_KEYFRAMES)

/-- Number of indices of the source whose frame read succeeds; used to state
the spec's "videos with ≥ MIN_KEYFRAMES readable frames". -/
def readable_count (src : VideoSource) : ℕ :=
  ((List.range src.total_frames).filter fun i => (src.get_frame i).isSome).length

/-!
## Structured tags (`app/models/evidence_pack.py`)
-/

inductive ToothSide where
  | upper | lower | left | right | unknown
deriving DecidableEq, Repr, Fintype

inductive ToothType where
  | anterior | posterior | unknown
deriving DecidableEq, Repr, Fintype

inductive Region where
  | occlusal | interproximal | gum | lingual | buccal | unknown
deriving DecidableEq, Repr, Fintype

inductive DetectedIssue where
  | dark_deposit | yellow_plaque | structural_defect | gum_issue | none | unknown
deriving DecidableEq, Repr

/-- Model of `FrameMetaTags` (pydantic model). -/
structure FrameMetaTags where
  side : ToothSide
  tooth_type : ToothType
  region : Region
  detected_issues : List DetectedIssue
  confidence_score : ℚ
  is_verified : Bool
deriving DecidableEq, Repr

/-!
## Frame matching (`FrameMatcherService`)
-/

def WEIGHT_SIDE : ℚ := 35/100

def WEIGHT_TOOTH_TYPE : ℚ := 35/100

def WEIGHT_REGION : ℚ := 30/100

def MIN_MATCH_SCORE : ℚ := 1/2

/-- Side-axis increment of `_calculate_structural_match_score`. -/
def sideContrib (a b : ToothSide) : ℚ :=
  if a = b ∧ a ≠ ToothSide.unknown then WEIGHT_SIDE
  else if a = ToothSide.unknown ∨ b = ToothSide.unknown then WEIGHT_SIDE * (3/10)
  else 0

/-- Tooth-type-axis increment of `_calculate_structural_match_score`. -/
def toothTypeContrib (a b : ToothType) : ℚ :=
  if a = b ∧ a ≠ ToothType.unknown then WEIGHT_TOOTH_TYPE
  else if a = ToothType.unknown ∨ b = ToothType.unknown then WEIGHT_TOOTH_TYPE * (3/10)
  else 0

/-- Region-axis increment of `_calculate_structural_match_score`. -/
def regionContrib (a b : Region) : ℚ :=
  if a = b ∧ a ≠ Region.unknown then WEIGHT_REGION
  else if a = Region.unknown ∨ b = Region.unknown then WEIGHT_REGION * (3/10)
  else 0

/-- Model of `FrameMatcherService._calculate_structural_match_score`. -/
def calculate_structural_match_score (qc bl : FrameMetaTags) : ℚ :=
  min (sideContrib qc.side bl.side +
       toothTypeContrib qc.tooth_type bl.tooth_type +
       regionContrib qc.region bl.region) 1

/-- An `AKeyframe` row of a completed baseline session, as consumed by the
matcher. `created_at` is the owning baseline `ASession.created_at`
(the matcher reads it through a session lookup; modelled as a field).
`meta_tags` is the parsed `FrameMetaTags` (`_parse_meta_tags` on well-formed
stored tags is the identity; JSON round-tripping is not modelled). -/
structure BLFrame where
  id : ℕ
  session_id : ℕ
  frame_index : ℕ
  meta_tags : FrameMetaTags
  created_at : ℚ
deriving DecidableEq, Repr

/-- Result of `FrameMatcherService._get_user_baseline_frames`: baseline
frames grouped by zone id, in Python-dict insertion order (the order in
which the unordered baseline-session query returned them). -/
abbrev ZoneStore := List (ℕ × List BLFrame)

/-- Model of `BaselineFrameReference` (url/timestamp display fields dropped). -/
structure BaselineFrameReference where
  baseline_frame_id : ℕ
  baseline_session_id : ℕ
  baseline_zone_id : ℕ
  baseline_created_at : ℚ
  matching_score : ℚ
deriving DecidableEq, Repr

/-- The zone-grouped store flattened in the exact iteration order of the
nested loops of `_find_best_baseline_match` (zones in dict order, then each
zone's frames in stored order), as (zone_id, frame) pairs. -/
def zone_frames_seq (store : ZoneStore) : List (ℕ × BLFrame) :=
  store.flatMap fun p => p.2.map fun f => (p.1, f)

/-- One loop iteration of `_find_best_baseline_match`: the accumulator is
(`best_score`, `best_match`). -/
def matchStep (qc : FrameMetaTags) (acc : ℚ × Option (ℕ × BLFrame)) (zf : ℕ × BLFrame) :
    ℚ × Option (ℕ × BLFrame) :=
  let score := calculate_structural_match_score qc zf.2.meta_tags
  if acc.1 < score ∧ MIN_MATCH_SCORE ≤ score then (score, some zf) else acc

/-- The return step of `_find_best_baseline_match`: `None` when no match
was recorded, otherwise the reference built from (`best_score`,
`best_match`). -/
def bestToRef (r : ℚ × Option (ℕ × BLFrame)) : Option BaselineFrameReference :=
  match r.2 with
  | Option.none => Option.none
  | Option.some zf =>
    Option.some { baseline_frame_id := zf.2.id
                  baseline_session_id := zf.2.session_id
                  baseline_zone_id := zf.1
                  baseline_created_at := zf.2.created_at
                  matching_score := r.1 }

/-- Model of `FrameMatcherService._find_best_baseline_match`: fold the loop body over
all zone/frame pairs starting from (`best_score`, `best_match`) = (0, None),
then build the reference. -/
def find_best_baseline_match (qc : FrameMetaTags) (store : ZoneStore) :
    Option BaselineFrameReference :=
  bestToRef ((zone_frames_seq store).foldl (matchStep qc) (0, Option.none))

/-- A quick-check `AKeyframe` as consumed by the matcher. -/
structure QCFrame where
  id : ℕ
  meta_tags : FrameMetaTags
deriving DecidableEq, Repr

/-- Model of `FrameMatcherService.match_frames_to_baseline`: the returned dict, as an
association list in candidate order. -/
def match_frames_to_baseline (qcs : List QCFrame) (store : ZoneStore) :
    List (ℕ × BaselineFrameReference) :=
  if store.isEmpty then []
  else qcs.filterMap fun qc =>
    (find_best_baseline_match qc.meta_tags store).map fun r => (qc.id, r)

/-- Model of `AUserProfile`, restricted to what the builders read. -/
structure UserProfile where
  baseline_completed : Bool
deriving DecidableEq, Repr

/-- Model of `BaselineReference` (completion-date display field dropped). -/
structure BaselineReference where
  has_baseline : Bool
  comparison_mode : String
  matched_baseline_frames : List BaselineFrameReference
deriving DecidableEq, Repr

/-- Model of `FrameMatcherService.build_baseline_reference` (structural matching
strategy). `profile` is the queried `AUserProfile` row, `store` the user's
zone-grouped baseline frames. -/
def build_baseline_reference (profile : Option UserProfile) (store : ZoneStore)
    (qcs : List QCFrame) : BaselineReference :=
  match profile with
  | Option.none => { has_baseline := false, comparison_mode := "none", matched_baseline_frames := [] }
  | Option.some p =>
    if p.baseline_completed = false then
      { has_baseline := false, comparison_mode := "none", matched_baseline_frames := [] }
    else
      let matchedRefs := match_frames_to_baseline qcs store
      let mode : String :=
        if matchedRefs.isEmpty then "none"
        else if matchedRefs.length < qcs.length / 2 then "partial"
        else "full"
      { has_baseline := true, comparison_mode := mode,
        matched_baseline_frames := matchedRefs.map (·.2) }

/-- Model of `FrameMatcherService.get_zone_middle_frames`: per zone 1..7, the middle
element of the stored frame list. -/
def get_zone_middle_frames (store : ZoneStore) : List (ℕ × BLFrame) :=
  if store.isEmpty then []
  else (List.range' 1 7).filterMap fun z =>
    match store.lookup z with
    | Option.none => Option.none
    | Option.some frames =>
      if frames.isEmpty then Option.none
      else (frames.get? (frames.length / 2)).map fun f => (z, f)

/-- Model of `FrameMatcherService.build_baseline_reference_simple` (representative
middle-frame strategy). -/
def build_baseline_reference_simple (profile : Option UserProfile) (store : ZoneStore) :
    BaselineReference × List (ℕ × BLFrame) :=
  match profile with
  | Option.none =>
    ({ has_baseline := false, comparison_mode := "none", matched_baseline_frames := [] }, [])
  | Option.some p =>
    if p.baseline_completed = false then
      ({ has_baseline := false, comparison_mode := "none", matched_baseline_frames := [] }, [])
    else
      let middle := get_zone_middle_frames store
      if middle.isEmpty then
        ({ has_baseline := true, comparison_mode := "none", matched_baseline_frames := [] }, [])
      else
        let refs := middle.map fun zf =>
          { baseline_frame_id := zf.2.id
            baseline_session_id := zf.2.session_id
            baseline_zone_id := zf.1
            baseline_created_at := zf.2.created_at
            matching_score := 1 : BaselineFrameReference }
        let mode : String :=
          if 6 ≤ middle.length then "full"
          else if 3 ≤ middle.length then "partial"
          else "minimal"
        ({ has_baseline := true, comparison_mode := mode, matched_baseline_frames := refs },
         middle)

/-!
## Semantic analyzer (`KeyframeAnalyzer`), up to the validity gate
-/

/-- Mask lookup at possibly out-of-range integer coordinates, with the given
border value (morphological border handling). -/
def maskAt (hgt wid : ℕ) (m : ℕ → ℕ → Bool) (border : Bool) (i j : ℤ) : Bool :=
  if 0 ≤ i ∧ i < (hgt : ℤ) ∧ 0 ≤ j ∧ j < (wid : ℤ) then m i.toNat j.toNat else border

/-- Model of `cv2.dilate` with `cv2.getStructuringElement(cv2.MORPH_ELLIPSE, (3, 3))`
(the cross-shaped kernel: anchor plus its four neighbours); pixels outside
the image count as background, the default border for dilation. -/
def dilate3 (hgt wid : ℕ) (m : ℕ → ℕ → Bool) (i j : ℕ) : Bool :=
  maskAt hgt wid m false i j ||
  maskAt hgt wid m false i (j + 1) || maskAt hgt wid m false i (j - 1) ||
  maskAt hgt wid m false (i + 1) j || maskAt hgt wid m false (i - 1) j

/-- Model of `cv2.erode` with the same cross-shaped kernel; pixels outside the image
count as foreground, the default border for erosion. -/
def erode3 (hgt wid : ℕ) (m : ℕ → ℕ → Bool) (i j : ℕ) : Bool :=
  maskAt hgt wid m true i j &&
  maskAt hgt wid m true i (j + 1) && maskAt hgt wid m true i (j - 1) &&
  maskAt hgt wid m true (i + 1) j && maskAt hgt wid m true (i - 1) j

/-- Model of `cv2.morphologyEx(mask, cv2.MORPH_OPEN, kernel)`. -/
def morphOpen3 (hgt wid : ℕ) (m : ℕ → ℕ → Bool) : ℕ → ℕ → Bool :=
  dilate3 hgt wid (erode3 hgt wid m)

/-- Model of `cv2.morphologyEx(mask, cv2.MORPH_CLOSE, kernel)`. -/
def morphClose3 (hgt wid : ℕ) (m : ℕ → ℕ → Bool) : ℕ → ℕ → Bool :=
  erode3 hgt wid (dilate3 hgt wid m)

/-- The denoising done to every mask in `_extract_color_masks`:
open, then close. -/
def denoise (hgt wid : ℕ) (m : ℕ → ℕ → Bool) : ℕ → ℕ → Bool :=
  morphClose3 hgt wid (morphOpen3 hgt wid m)

/-- Raw (pre-morphology) mask of an image for a per-HSV-pixel test. -/
def rawMask (fr : Img) (pred : Pixel → Bool) (i j : ℕ) : Bool :=
  pred (bgr2hsv (fr.pix i j))

/-- Model of `np.count_nonzero` over a mask given as a per-position function. -/
def countMask (hgt wid : ℕ) (m : ℕ → ℕ → Bool) : ℕ :=
  ∑ i ∈ Finset.range hgt, ∑ j ∈ Finset.range wid, if m i j then 1 else 0

/-- The six masks built by `KeyframeAnalyzer._extract_color_masks`
(each denoised by morphological open then close). -/
structure ColorMasks where
  tooth_white : ℕ → ℕ → Bool
  gum_pink : ℕ → ℕ → Bool
  dark_deposit : ℕ → ℕ → Bool
  yellow_plaque : ℕ → ℕ → Bool
  gum_red : ℕ → ℕ → Bool
  oral_cavity : ℕ → ℕ → Bool

/-- Pixel test for `TOOTH_WHITE_LOWER..UPPER` = [0,0,180]..[180,40,255]. -/
def toothWhitePred (p : Pixel) : Bool := hsvInRange (0, 0, 180) (180, 40, 255) p

/-- Pixel test for the union of the two gum-pink ranges
[0,30,80]..[20,180,255] and [160,30,80]..[180,180,255]. -/
def gumPinkPred (p : Pixel) : Bool :=
  hsvInRange (0, 30, 80) (20, 180, 255) p || hsvInRange (160, 30, 80) (180, 180, 255) p

/-- Pixel test for `ORAL_CAVITY_LOWER..UPPER` = [0,0,0]..[180,255,40]. -/
def oralCavityPred (p : Pixel) : Bool := hsvInRange (0, 0, 0) (180, 255, 40) p

/-- Model of `KeyframeAnalyzer._extract_color_masks`. The dark-deposit, yellow-plaque
and gum-red ranges coincide with the scorer's `blackPred`, `yellowPred`,
`redPred`. -/
def extract_color_masks (fr : Img) : ColorMasks where
  tooth_white := denoise fr.hgt fr.wid (rawMask fr toothWhitePred)
  gum_pink := denoise fr.hgt fr.wid (rawMask fr gumPinkPred)
  dark_deposit := denoise fr.hgt fr.wid (rawMask fr blackPred)
  yellow_plaque := denoise fr.hgt fr.wid (rawMask fr yellowPred)
  gum_red := denoise fr.hgt fr.wid (rawMask fr redPred)
  oral_cavity := denoise fr.hgt fr.wid (rawMask fr oralCavityPred)

/-- The ratio dict built by `KeyframeAnalyzer._calculate_region_ratios`. -/
structure RegionRatios where
  tooth_white : ℚ
  gum_pink : ℚ
  dark_deposit : ℚ
  yellow_plaque : ℚ
  gum_red : ℚ
  oral_cavity : ℚ
deriving DecidableEq, Repr

/-- Model of `KeyframeAnalyzer._calculate_region_ratios`. -/
def calculate_region_ratios (fr : Img) (masks : ColorMasks) : RegionRatios :=
  if fr.size = 0 then ⟨0, 0, 0, 0, 0, 0⟩
  else
    let total : ℚ := (fr.size : ℚ)
    { tooth_white := (countMask fr.hgt fr.wid masks.tooth_white : ℚ) / total
      gum_pink := (countMask fr.hgt fr.wid masks.gum_pink : ℚ) / total
      dark_deposit := (countMask fr.hgt fr.wid masks.dark_deposit : ℚ) / total
      yellow_plaque := (countMask fr.hgt fr.wid masks.yellow_plaque : ℚ) / total
      gum_red := (countMask fr.hgt fr.wid masks.gum_red : ℚ) / total
      oral_cavity := (countMask fr.hgt fr.wid masks.oral_cavity : ℚ) / total }

/-- Model of `KeyframeAnalyzer._is_valid_oral_image`: tooth coverage above
`TOOTH_AREA_THRESHOLD` (0.10) or gum coverage above 0.05. -/
def is_valid_oral_image (r : RegionRatios) : Bool :=
  decide ((1/10 : ℚ) < r.tooth_white) || decide ((1/20 : ℚ) < r.gum_pink)

/-- Model of `AnalysisResult` (debug info dropped). -/
structure AnalysisResult where
  side : ToothSide
  tooth_type : ToothType
  region : Region
  detected_issues : List DetectedIssue
  confidence_score : ℚ
deriving DecidableEq, Repr

/-- Model of `KeyframeAnalyzer._create_unknown_result` (the reason string only feeds
debug info). -/
def unknownResult : AnalysisResult where
  side := ToothSide.unknown
  tooth_type := ToothType.unknown
  region := Region.unknown
  detected_issues := [DetectedIssue.unknown]
  confidence_score := 0

/-- Model of `KeyframeAnalyzer.analyze_frame`, modelled exactly up to the validity
gate. The analysis performed on frames that pass the gate (side / tooth-type
/ region heuristics and issue detection, built on OpenCV contour extraction)
is abstracted as the parameter `analyzeValid`; every theorem below holds for
any such continuation. -/
def analyze_frame (analyzeValid : Img → ColorMasks → RegionRatios → AnalysisResult)
    (fr : Img) : AnalysisResult :=
  if fr.size = 0 then unknownResult
  else
    let masks := extract_color_masks fr
    let rs := calculate_region_ratios fr masks
    if is_valid_oral_image rs = false then unknownResult
    else analyzeValid fr masks rs

/-!
## Concrete inputs used by counterexamples and witnesses
-/

/-- All-zero (fully dark) frame of the given dimensions. -/
def zeroImg (hgt wid : ℕ) : Img := ⟨hgt, wid, fun _ _ => (0, 0, 0)⟩

/-- A 1×2 frame: one pure-yellow pixel, one pure-red pixel.
Scores 7/20 + 3/10 = 13/20 on `detect_anomaly_opencv`. -/
def frameYR : Img := ⟨1, 2, fun _ j => if j = 0 then (0, 255, 255) else (0, 0, 255)⟩

/-- A 1×10 frame: one black, five yellow, four red pixels.
Scores the cap 1 on `detect_anomaly_opencv`. -/
def frame10 : Img :=
  ⟨1, 10, fun _ j => if j = 0 then (0, 0, 0) else if j < 6 then (0, 255, 255) else (0, 0, 255)⟩

/-- Source with 100 frames at 30 fps of which exactly the first five are
readable (all-dark): both tracks probe mostly unreadable indices. -/
def srcC1 : VideoSource :=
  ⟨10/3, 100, 30, fun i => if i < 5 then some (zeroImg 1 1) else none⟩

/-- Source with 26 frames at 1 fps, all readable and all rule-triggering;
the last frame scores 1, the others 13/20. -/
def srcC2 : VideoSource :=
  ⟨26, 26, 1, fun i => some (if i = 25 then frame10 else frameYR)⟩

/-- Source with 6 readable all-dark frames: the uniform track probes
duplicate indices. -/
def srcC3 : VideoSource :=
  ⟨1/5, 6, 30, fun i => if i < 6 then some (zeroImg 1 1) else none⟩

/-- Source where every frame read fails. -/
def srcC8 : VideoSource := ⟨1/3, 10, 30, fun _ => none⟩

/-- Empty source (no frames at all); used by witnesses. -/
def srcEmpty : VideoSource := ⟨0, 0, 30, fun _ => none⟩

/-- Tag record with every axis known. -/
def tagsFull : FrameMetaTags :=
  ⟨ToothSide.upper, ToothType.anterior, Region.occlusal, [DetectedIssue.none], 1, false⟩

/-- Tag record with every axis unknown. -/
def tagsUnknown : FrameMetaTags :=
  ⟨ToothSide.unknown, ToothType.unknown, Region.unknown, [DetectedIssue.unknown], 0, false⟩

/-- Baseline frame fully matching `tagsFull`, captured late (t = 100). -/
def blLate : BLFrame := ⟨1, 1, 0, tagsFull, 100⟩

/-- Baseline frame fully matching `tagsFull`, captured early (t = 50). -/
def blEarly : BLFrame := ⟨2, 2, 0, tagsFull, 50⟩

/-- Store whose iteration order puts the later-captured tied frame first. -/
def storeC7 : ZoneStore := [(1, [blLate]), (2, [blEarly])]

/-- One-zone store matching `tagsFull`. -/
def storeOne : ZoneStore := [(1, [blLate])]

/-- Quick-check frame list with a single fully-tagged frame. -/
def qcOne : List QCFrame := [⟨7, tagsFull⟩]

/-- Baseline frame whose tags share no axis with `tagsFull` and are fully
known: structural score 0 against `tagsFull`. -/
def blMismatch : BLFrame :=
  ⟨3, 3, 0, ⟨ToothSide.lower, ToothType.posterior, Region.gum, [DetectedIssue.none], 1, false⟩, 10⟩

/-- Store containing only frames scoring below `MIN_MATCH_SCORE` against
`tagsFull`. -/
def storeLow : ZoneStore := [(4, [blMismatch])]

/-- Completed user profile. -/
def profileDone : UserProfile := ⟨true⟩

deriving instance DecidableEq for Except

/-!
## Theorems
-/

/-- Shared helper: the merged candidate list is (non-strictly) sorted by
frame index. -/
theorem merged_sorted (src : VideoSource) : (merged src).Sorted candLE :=
  List.sorted_insertionSort candLE (priority_track src ++ uniform_track src)

/-- Shared helper: a successful extraction returns the first
`MAX_KEYFRAMES` entries of the merged sorted candidate list. -/
theorem extract_keyframes_ok (src : VideoSource) (l : List Candidate)
    (h : extract_keyframes src = Except.ok l) :
    l = (merged src).take settings.MAX_KEYFRAMES := by
  unfold extract_keyframes at h
  by_cases hs : scan_interval src = 0
  · rw [if_pos hs] at h
    exact absurd h (by simp)
  · rw [if_neg hs] at h
    exact (Except.ok.injEq _ _ ▸ h).symm

/-- C10: the structural match score is symmetric in its two tag records. -/
theorem c10_structural_score_symmetric (t1 t2 : FrameMetaTags) :
    calculate_structural_match_score t1 t2 = calculate_structural_match_score t2 t1 := by
  have hs : ∀ a b : ToothSide, sideContrib a b = sideContrib b a := by with_unfolding_all decide
  have ht : ∀ a b : ToothType, toothTypeContrib a b = toothTypeContrib b a := by with_unfolding_all decide
  have hr : ∀ a b : Region, regionContrib a b = regionContrib b a := by with_unfolding_all decide
  unfold calculate_structural_match_score
  rw [hs t1.side t2.side, ht t1.tooth_type t2.tooth_type, hr t1.region t2.region]

/-- C6: on each axis (side weighted 0.35, tooth type 0.35, region 0.30),
an unknown tag on either end makes the axis contribute exactly 30% of its
weight, and the total structural score is the capped sum of the three axis
contributions. -/
theorem c6_unknown_axis_partial_credit (t1 t2 : FrameMetaTags) :
    ((t1.side = ToothSide.unknown ∨ t2.side = ToothSide.unknown) →
      sideContrib t1.side t2.side = WEIGHT_SIDE * (3/10)) ∧
    ((t1.tooth_type = ToothType.unknown ∨ t2.tooth_type = ToothType.unknown) →
      toothTypeContrib t1.tooth_type t2.tooth_type = WEIGHT_TOOTH_TYPE * (3/10)) ∧
    ((t1.region = Region.unknown ∨ t2.region = Region.unknown) →
      regionContrib t1.region t2.region = WEIGHT_REGION * (3/10)) ∧
    calculate_structural_match_score t1 t2 =
      min (sideContrib t1.side t2.side + toothTypeContrib t1.tooth_type t2.tooth_type +
           regionContrib t1.region t2.region) 1 := by
  have hs : ∀ a b : ToothSide, (a = ToothSide.unknown ∨ b = ToothSide.unknown) →
      sideContrib a b = WEIGHT_SIDE * (3/10) := by with_unfolding_all decide
  have ht : ∀ a b : ToothType, (a = ToothType.unknown ∨ b = ToothType.unknown) →
      toothTypeContrib a b = WEIGHT_TOOTH_TYPE * (3/10) := by with_unfolding_all decide
  have hr : ∀ a b : Region, (a = Region.unknown ∨ b = Region.unknown) →
      regionContrib a b = WEIGHT_REGION * (3/10) := by with_unfolding_all decide
  exact ⟨hs t1.side t2.side, ht t1.tooth_type t2.tooth_type, hr t1.region t2.region, rfl⟩

/-- C6 witness: concrete unknown-vs-known and unknown-vs-unknown axes get
exactly 30% of the axis weight. -/
theorem c6_unknown_axis_partial_credit_witness :
    sideContrib tagsUnknown.side tagsFull.side = WEIGHT_SIDE * (3/10) ∧
    toothTypeContrib tagsUnknown.tooth_type tagsUnknown.tooth_type =
      WEIGHT_TOOTH_TYPE * (3/10) ∧
    regionContrib tagsFull.region tagsUnknown.region = WEIGHT_REGION * (3/10) :=
  ⟨(c6_unknown_axis_partial_credit tagsUnknown tagsFull).1 (Or.inl rfl),
   (c6_unknown_axis_partial_credit tagsUnknown tagsUnknown).2.1 (Or.inl rfl),
   (c6_unknown_axis_partial_credit tagsFull tagsUnknown).2.2.1 (Or.inr rfl)⟩

/-- C1 counterexample: `srcC1` yields five readable frames
(= MIN_KEYFRAMES), yet extraction completes with a single keyframe — the
claimed padding step does not exist in `extract_keyframes`. -/
theorem c1_counterexample :
    settings.MIN_KEYFRAMES ≤ readable_count srcC1 ∧
    extract_keyframes srcC1 = Except.ok [⟨0, 0, 0, "uniform_sampled", "uniform"⟩] ∧
    [(⟨0, 0, 0, "uniform_sampled", "uniform"⟩ : Candidate)].length <
      settings.MIN_KEYFRAMES := by
  with_unfolding_all decide

/-- C1 amended: every successful extraction returns at most `MAX_KEYFRAMES`
(25) keyframes; the lower bound of the claim has no counterpart in the
code (see the counterexample). -/
theorem c1_keyframe_count_upper_bound (src : VideoSource) (l : List Candidate)
    (h : extract_keyframes src = Except.ok l) :
    l.length ≤ settings.MAX_KEYFRAMES := by
  rw [extract_keyframes_ok src l h, List.length_take]
  exact min_le_left _ _

/-- C1 witness: the upper bound at a concrete source. -/
theorem c1_keyframe_count_upper_bound_witness :
    extract_keyframes srcEmpty = Except.ok [] ∧
    ([] : List Candidate).length ≤ settings.MAX_KEYFRAMES :=
  ⟨by with_unfolding_all decide,
   c1_keyframe_count_upper_bound srcEmpty [] (by with_unfolding_all decide)⟩

/-- C2 counterexample: on `srcC2` the merged list holds 26 candidates and
the one with the strictly highest anomaly score (index 25, score 1) is
dropped by the truncation while 25 lower-scoring candidates (score 13/20)
are kept — retention is by smallest index, not by highest score. -/
theorem c2_counterexample :
    settings.MAX_KEYFRAMES < (merged srcC2).length ∧
    (merged srcC2).map (fun c => (c.frame_index, c.score)) =
      (List.range 26).map (fun i => (i, if i = 25 then 1 else 13/20)) ∧
    (extract_keyframes srcC2).map (fun l => l.map fun c => (c.frame_index, c.score)) =
      Except.ok ((List.range 25).map fun i => (i, 13/20)) ∧
    (13/20 : ℚ) < 1 := by
  with_unfolding_all decide

/-- C2 amended: when the merged candidate list exceeds `MAX_KEYFRAMES`, the
retained keyframes are the first 25 of the index-sorted merged list: every
kept candidate's index is at most every dropped candidate's index,
irrespective of anomaly scores. -/
theorem c2_truncation_keeps_smallest_indices (src : VideoSource) (l : List Candidate)
    (h : extract_keyframes src = Except.ok l) :
    l = (merged src).take settings.MAX_KEYFRAMES ∧
    ∀ c ∈ l, ∀ d ∈ (merged src).drop settings.MAX_KEYFRAMES,
      c.frame_index ≤ d.frame_index := by
  have hl := extract_keyframes_ok src l h
  refine ⟨hl, ?_⟩
  have hs : (merged src).Pairwise candLE := merged_sorted src
  have hsplit :=
    List.take_append_drop settings.MAX_KEYFRAMES (merged src)
  rw [← hsplit] at hs
  have hrel := (List.pairwise_append.mp hs).2.2
  intro c hc d hd
  subst hl
  exact hrel c hc d hd

/-- C2 witness: the truncation characterisation at a concrete source. -/
theorem c2_truncation_keeps_smallest_indices_witness :
    extract_keyframes srcEmpty = Except.ok [] ∧
    (([] : List Candidate) = (merged srcEmpty).take settings.MAX_KEYFRAMES ∧
      ∀ c ∈ ([] : List Candidate), ∀ d ∈ (merged srcEmpty).drop settings.MAX_KEYFRAMES,
        c.frame_index ≤ d.frame_index) :=
  ⟨by with_unfolding_all decide,
   c2_truncation_keeps_smallest_indices srcEmpty [] (by with_unfolding_all decide)⟩

/-- C3 counterexample: on `srcC3` (six readable frames) the uniform track
probes duplicate indices, and the final sequence contains repeated frame
indices — it is not strictly ascending and has duplicates. -/
theorem c3_counterexample :
    (extract_keyframes srcC3).map (fun l => l.map (·.frame_index)) =
      Except.ok [0, 0, 0, 0, 1, 1, 1, 2, 2, 2, 3, 3, 3, 3, 4, 4, 4, 5, 5, 5] ∧
    ¬ List.Pairwise (fun a b : ℕ => a < b)
      [0, 0, 0, 0, 1, 1, 1, 2, 2, 2, 3, 3, 3, 3, 4, 4, 4, 5, 5, 5] := by
  with_unfolding_all decide

/-- C3 amended: the final keyframe sequence is sorted by frame index
(non-strictly: the stored order is index order, but duplicate indices can
occur when the uniform track probes the same index twice). -/
theorem c3_final_frames_sorted_by_index (src : VideoSource) (l : List Candidate)
    (h : extract_keyframes src = Except.ok l) : l.Pairwise candLE := by
  rw [extract_keyframes_ok src l h]
  exact (merged_sorted src).sublist (List.take_sublist _ _)

/-- C3 witness: sortedness at a concrete source. -/
theorem c3_final_frames_sorted_by_index_witness :
    extract_keyframes srcEmpty = Except.ok [] ∧ ([] : List Candidate).Pairwise candLE :=
  ⟨by with_unfolding_all decide,
   c3_final_frames_sorted_by_index srcEmpty [] (by with_unfolding_all decide)⟩

/-- C8 counterexample: on `srcC8` every frame read fails, yet extraction
completes successfully with an empty keyframe set — no
`NoReadableFrames` fatal condition exists in the code. -/
theorem c8_counterexample :
    readable_count srcC8 = 0 ∧ extract_keyframes srcC8 = Except.ok [] := by
  with_unfolding_all decide

/-- C8 amended: whenever every frame read fails (and the scan stride is
nonzero, i.e. no `range` ValueError), the run terminates normally with an
empty keyframe set instead of a distinct fatal condition. -/
theorem c8_all_unreadable_completes_empty (src : VideoSource)
    (hnone : ∀ i, src.get_frame i = none) (hsi : scan_interval src ≠ 0) :
    extract_keyframes src = Except.ok [] := by
  have hp : priority_track src = [] := by
    unfold priority_track
    refine List.filterMap_eq_nil_iff.mpr fun i _ => ?_
    rw [hnone i]
  have hu : uniform_track src = [] := by
    unfold uniform_track
    split
    · refine List.filterMap_eq_nil_iff.mpr fun i _ => ?_
      simp [hp, hnone]
    · rfl
  unfold extract_keyframes
  rw [if_neg hsi]
  unfold merged
  rw [hp, hu]
  rfl

/-- C8 witness: the empty outcome at the concrete all-unreadable source. -/
theorem c8_all_unreadable_completes_empty_witness :
    extract_keyframes srcC8 = Except.ok [] :=
  c8_all_unreadable_completes_empty srcC8 (fun _ => rfl) (by with_unfolding_all decide)

/-- C4 counterexample: with a completed baseline, one candidate frame and
one matched zone, the structural builder labels the session `"full"`,
not the `"minimal"` that the claimed zone-count rule (1–2 → minimal)
demands: its mode depends on matched-frame count versus candidate count,
not on matched zones. -/
theorem c4_counterexample :
    (build_baseline_reference (some profileDone) storeOne qcOne).comparison_mode = "full" ∧
    (build_baseline_reference (some profileDone) storeOne qcOne).matched_baseline_frames.map
      (·.baseline_zone_id) = [1] ∧
    ("full" : String) ≠ "minimal" := by
  with_unfolding_all decide

/-- C4 amended: the zone-count rule (0 → none, 1–2 → minimal, 3–5 →
partial, ≥ 6 → full) holds for the representative-frame builder
`build_baseline_reference_simple`, with the matched-zone count being the
number of zones holding a middle frame. -/
theorem c4_simple_mode_from_zone_count (p : UserProfile) (store : ZoneStore)
    (hp : p.baseline_completed = true) :
    (build_baseline_reference_simple (some p) store).1.comparison_mode =
      (if (get_zone_middle_frames store).length = 0 then "none"
       else if (get_zone_middle_frames store).length ≤ 2 then "minimal"
       else if (get_zone_middle_frames store).length ≤ 5 then "partial"
       else "full") := by
  unfold build_baseline_reference_simple
  dsimp only
  rw [hp]
  rw [if_neg (by simp : ¬ ((true : Bool) = false))]
  rcases Nat.eq_zero_or_pos (get_zone_middle_frames store).length with h0 | h0
  · have he : (get_zone_middle_frames store).isEmpty = true := by
      rw [List.isEmpty_iff, ← List.length_eq_zero]
      exact h0
    simp [he, h0]
  · have he : (get_zone_middle_frames store).isEmpty = false := by
      rw [List.isEmpty_eq_false_iff_exists_mem]
      rcases List.exists_mem_of_length_pos h0 with ⟨a, ha⟩
      exact ⟨a, ha⟩
    simp only [he, Bool.false_eq_true, if_false]
    split_ifs <;> first | rfl | omega

/-- C4 witness: the simple builder at one covered zone yields "minimal". -/
theorem c4_simple_mode_from_zone_count_witness :
    (build_baseline_reference_simple (some profileDone) storeOne).1.comparison_mode =
      (if (get_zone_middle_frames storeOne).length = 0 then "none"
       else if (get_zone_middle_frames storeOne).length ≤ 2 then "minimal"
       else if (get_zone_middle_frames storeOne).length ≤ 5 then "partial"
       else "full") :=
  c4_simple_mode_from_zone_count profileDone storeOne rfl

/-- Shared helper characterising the matcher's fold: either no pair ever
qualifies (the accumulator is returned unchanged), or the result is the
first pair attaining the maximum qualifying score — all earlier pairs score
strictly less, all later pairs at most as much. -/
theorem matchStep_foldl_spec (qc : FrameMetaTags) (l : List (ℕ × BLFrame)) :
    ∀ (b : ℚ) (cur : Option (ℕ × BLFrame)),
      (l.foldl (matchStep qc) (b, cur) = (b, cur) ∧
        ∀ p ∈ l, ¬ (b < calculate_structural_match_score qc p.2.meta_tags ∧
          MIN_MATCH_SCORE ≤ calculate_structural_match_score qc p.2.meta_tags)) ∨
      (∃ l1 p l2, l = l1 ++ p :: l2 ∧
        l.foldl (matchStep qc) (b, cur) =
          (calculate_structural_match_score qc p.2.meta_tags, some p) ∧
        b < calculate_structural_match_score qc p.2.meta_tags ∧
        MIN_MATCH_SCORE ≤ calculate_structural_match_score qc p.2.meta_tags ∧
        (∀ q ∈ l1, calculate_structural_match_score qc q.2.meta_tags <
          calculate_structural_match_score qc p.2.meta_tags) ∧
        (∀ q ∈ l2, calculate_structural_match_score qc q.2.meta_tags ≤
          calculate_structural_match_score qc p.2.meta_tags)) := by
  induction l with
  | nil =>
    intro b cur
    exact Or.inl ⟨rfl, by simp⟩
  | cons hd tl ih =>
    intro b cur
    by_cases hc : b < calculate_structural_match_score qc hd.2.meta_tags ∧
        MIN_MATCH_SCORE ≤ calculate_structural_match_score qc hd.2.meta_tags
    · have hstep : (hd :: tl).foldl (matchStep qc) (b, cur) =
          tl.foldl (matchStep qc)
            (calculate_structural_match_score qc hd.2.meta_tags, some hd) := by
        rw [List.foldl_cons]
        congr 1
        unfold matchStep
        rw [if_pos hc]
      rcases ih (calculate_structural_match_score qc hd.2.meta_tags) (some hd) with
        ⟨heq, hall⟩ | ⟨l1, p, l2, hl, hr, hb, hm, h1, h2⟩
      · refine Or.inr ⟨[], hd, tl, rfl, by rw [hstep, heq], hc.1, hc.2, by simp, ?_⟩
        intro q hq
        rcases not_and_or.mp (hall q hq) with h | h
        · exact not_lt.mp h
        · exact le_of_lt (lt_of_lt_of_le (not_le.mp h) hc.2)
      · refine Or.inr ⟨hd :: l1, p, l2, by rw [hl]; rfl, by rw [hstep, hr],
          lt_trans hc.1 hb, hm, ?_, h2⟩
        intro q hq
        rcases List.mem_cons.mp hq with rfl | hq'
        · exact hb
        · exact h1 q hq'
    · have hstep : (hd :: tl).foldl (matchStep qc) (b, cur) =
          tl.foldl (matchStep qc) (b, cur) := by
        rw [List.foldl_cons]
        congr 1
        unfold matchStep
        rw [if_neg hc]
      rcases ih b cur with ⟨heq, hall⟩ | ⟨l1, p, l2, hl, hr, hb, hm, h1, h2⟩
      · refine Or.inl ⟨by rw [hstep, heq], ?_⟩
        intro q hq
        rcases List.mem_cons.mp hq with rfl | hq'
        · exact hc
        · exact hall q hq'
      · refine Or.inr ⟨hd :: l1, p, l2, by rw [hl]; rfl, by rw [hstep, hr], hb, hm, ?_, h2⟩
        intro q hq
        rcases List.mem_cons.mp hq with rfl | hq'
        · rcases not_and_or.mp hc with h | h
          · exact lt_of_le_of_lt (not_lt.mp h) hb
          · exact lt_of_lt_of_le (not_le.mp h) hm
        · exact h1 q hq'

/-- C5: any returned baseline match carries a matching score of at least
`MIN_MATCH_SCORE` (0.5), and when every baseline frame scores below 0.5
against the candidate, no match is returned at all. -/
theorem c5_match_score_floor :
    (∀ (qc : FrameMetaTags) (store : ZoneStore) (r : BaselineFrameReference),
        find_best_baseline_match qc store = some r →
        MIN_MATCH_SCORE ≤ r.matching_score) ∧
    (∀ (qc : FrameMetaTags) (store : ZoneStore),
        (∀ p ∈ zone_frames_seq store,
          calculate_structural_match_score qc p.2.meta_tags < MIN_MATCH_SCORE) →
        find_best_baseline_match qc store = none) := by
  constructor
  · intro qc store r h
    unfold find_best_baseline_match at h
    rcases matchStep_foldl_spec qc (zone_frames_seq store) 0 none with
      ⟨heq, _⟩ | ⟨l1, p, l2, _, hr, _, hm, _, _⟩
    · rw [heq] at h
      exact absurd h (by simp [bestToRef])
    · rw [hr] at h
      have : r = ⟨p.2.id, p.2.session_id, p.1, p.2.created_at,
          calculate_structural_match_score qc p.2.meta_tags⟩ := by
        simpa [bestToRef] using h.symm
      rw [this]
      exact hm
  · intro qc store hall
    rcases matchStep_foldl_spec qc (zone_frames_seq store) 0 none with
      ⟨heq, _⟩ | ⟨l1, p, l2, hl, _, _, hm, _, _⟩
    · unfold find_best_baseline_match
      rw [heq]
      rfl
    · exfalso
      have hp : p ∈ zone_frames_seq store := by
        rw [hl]
        exact List.mem_append_right l1 (List.mem_cons_self p l2)
      exact absurd hm (not_le.mpr (hall p hp))

/-- C5 witness: a concrete returned match scores ≥ 0.5, and a concrete
all-below-threshold store returns no match. -/
theorem c5_match_score_floor_witness :
    MIN_MATCH_SCORE ≤ (⟨1, 1, 1, 100, 1⟩ : BaselineFrameReference).matching_score ∧
    find_best_baseline_match tagsFull storeLow = none :=
  ⟨c5_match_score_floor.1 tagsFull storeC7 ⟨1, 1, 1, 100, 1⟩
      (by with_unfolding_all decide),
   c5_match_score_floor.2 tagsFull storeLow (by with_unfolding_all decide)⟩

/-- C7 counterexample: two baseline frames tied at the top score; the
earlier-captured one (`blEarly`, t = 50) is *not* returned — the match goes
to `blLate` (t = 100) because it comes first in the store's iteration
order. -/
theorem c7_counterexample :
    calculate_structural_match_score tagsFull blLate.meta_tags =
      calculate_structural_match_score tagsFull blEarly.meta_tags ∧
    blEarly.created_at < blLate.created_at ∧
    find_best_baseline_match tagsFull storeC7 =
      some ⟨blLate.id, blLate.session_id, 1, blLate.created_at, 1⟩ := by
  with_unfolding_all decide

/-- C7 amended: the returned match is the first frame in the store's
iteration order (zone grouping order, then per-zone stored order) attaining
the maximum qualifying score — ties are broken by iteration order, not by
capture time; on a fixed store snapshot the outcome is deterministic. -/
theorem c7_first_best_in_iteration_order (qc : FrameMetaTags) (store : ZoneStore)
    (r : BaselineFrameReference) (h : find_best_baseline_match qc store = some r) :
    ∃ l1 zf l2, zone_frames_seq store = l1 ++ zf :: l2 ∧
      r = ⟨zf.2.id, zf.2.session_id, zf.1, zf.2.created_at,
           calculate_structural_match_score qc zf.2.meta_tags⟩ ∧
      MIN_MATCH_SCORE ≤ calculate_structural_match_score qc zf.2.meta_tags ∧
      (∀ q ∈ l1, calculate_structural_match_score qc q.2.meta_tags <
        calculate_structural_match_score qc zf.2.meta_tags) ∧
      (∀ q ∈ l2, calculate_structural_match_score qc q.2.meta_tags ≤
        calculate_structural_match_score qc zf.2.meta_tags) := by
  unfold find_best_baseline_match at h
  rcases matchStep_foldl_spec qc (zone_frames_seq store) 0 none with
    ⟨heq, _⟩ | ⟨l1, p, l2, hl, hr, _, hm, h1, h2⟩
  · rw [heq] at h
    exact absurd h (by simp [bestToRef])
  · rw [hr] at h
    refine ⟨l1, p, l2, hl, ?_, hm, h1, h2⟩
    simpa [bestToRef] using h.symm

/-- C7 witness: the first-in-iteration-order characterisation at the
concrete tied store. -/
theorem c7_first_best_in_iteration_order_witness :
    ∃ l1 zf l2, zone_frames_seq storeC7 = l1 ++ zf :: l2 ∧
      (⟨1, 1, 1, 100, 1⟩ : BaselineFrameReference) =
        ⟨zf.2.id, zf.2.session_id, zf.1, zf.2.created_at,
         calculate_structural_match_score tagsFull zf.2.meta_tags⟩ ∧
      MIN_MATCH_SCORE ≤ calculate_structural_match_score tagsFull zf.2.meta_tags ∧
      (∀ q ∈ l1, calculate_structural_match_score tagsFull q.2.meta_tags <
        calculate_structural_match_score tagsFull zf.2.meta_tags) ∧
      (∀ q ∈ l2, calculate_structural_match_score tagsFull q.2.meta_tags ≤
        calculate_structural_match_score tagsFull zf.2.meta_tags) :=
  c7_first_best_in_iteration_order tagsFull storeC7 ⟨1, 1, 1, 100, 1⟩
    (by with_unfolding_all decide)

/-- Shared helper: converting the zero pixel to HSV gives the zero pixel. -/
theorem bgr2hsv_zero : bgr2hsv (0, 0, 0) = (0, 0, 0) := by
  with_unfolding_all decide

/-- Shared helper: scorer-mask pixel counts on an all-zero frame. -/
theorem countHSV_zeroImg (hgt wid : ℕ) (pred : Pixel → Bool) :
    (zeroImg hgt wid).countHSV pred = if pred (0, 0, 0) then hgt * wid else 0 := by
  unfold Img.countHSV zeroImg
  dsimp only
  rw [bgr2hsv_zero]
  cases hp : pred (0, 0, 0)
  · simp only [hp, Bool.false_eq_true, if_false]
    simp
  · simp only [hp, if_true]
    simp [Finset.sum_const, Finset.card_range, Nat.mul_comm]

/-- Shared helper: a bordered lookup into an everywhere-false mask with
background border is false. -/
theorem maskAt_false {hgt wid : ℕ} {m : ℕ → ℕ → Bool}
    (hm : ∀ a b, a < hgt → b < wid → m a b = false) (i j : ℤ) :
    maskAt hgt wid m false i j = false := by
  unfold maskAt
  split
  case isTrue hc => exact hm _ _ (by omega) (by omega)
  case isFalse => rfl

/-- Shared helper: dilation of a mask that is false on the image is false. -/
theorem dilate3_of_false {hgt wid : ℕ} {m : ℕ → ℕ → Bool}
    (hm : ∀ a b, a < hgt → b < wid → m a b = false) (i j : ℕ) :
    dilate3 hgt wid m i j = false := by
  unfold dilate3
  rw [maskAt_false hm, maskAt_false hm, maskAt_false hm, maskAt_false hm, maskAt_false hm]
  rfl

/-- Shared helper: erosion of a mask that is false on the image is false on
the image (the anchor probe already fails). -/
theorem erode3_of_false {hgt wid : ℕ} {m : ℕ → ℕ → Bool}
    (hm : ∀ a b, a < hgt → b < wid → m a b = false) (i j : ℕ)
    (hi : i < hgt) (hj : j < wid) : erode3 hgt wid m i j = false := by
  unfold erode3
  have h0 : maskAt hgt wid m true (i : ℤ) (j : ℤ) = false := by
    unfold maskAt
    rw [if_pos (by omega)]
    have : (i : ℤ).toNat = i := Int.toNat_natCast i
    have hj' : (j : ℤ).toNat = j := Int.toNat_natCast j
    rw [this, hj']
    exact hm i j hi hj
  rw [h0]
  simp

/-- Shared helper: the open-then-close denoising of a mask that is false on
the image stays false on the image. -/
theorem denoise_of_false {hgt wid : ℕ} {m : ℕ → ℕ → Bool}
    (hm : ∀ a b, a < hgt → b < wid → m a b = false) (i j : ℕ)
    (hi : i < hgt) (hj : j < wid) : denoise hgt wid m i j = false := by
  have h1 : ∀ a b, a < hgt → b < wid → erode3 hgt wid m a b = false := fun a b ha hb =>
    erode3_of_false hm a b ha hb
  have h2 : ∀ a b, a < hgt → b < wid →
      dilate3 hgt wid (erode3 hgt wid m) a b = false := fun a b _ _ =>
    dilate3_of_false h1 a b
  have h3 : ∀ a b, a < hgt → b < wid →
      dilate3 hgt wid (dilate3 hgt wid (erode3 hgt wid m)) a b = false := fun a b _ _ =>
    dilate3_of_false h2 a b
  exact erode3_of_false h3 i j hi hj

/-- Shared helper: counting an on-image-false mask gives zero. -/
theorem countMask_eq_zero {hgt wid : ℕ} {m : ℕ → ℕ → Bool}
    (hm : ∀ a b, a < hgt → b < wid → m a b = false) : countMask hgt wid m = 0 := by
  unfold countMask
  refine Finset.sum_eq_zero fun i hi => Finset.sum_eq_zero fun j hj => ?_
  rw [hm i j (Finset.mem_range.mp hi) (Finset.mem_range.mp hj)]
  rfl

/-- Shared helper: the anomaly scorer on an all-zero frame returns score 0
with reason "none" (the all-dark mask covers everything, which the
`black_ratio < 0.3` guard excludes; yellow and red coverage are zero). -/
theorem detect_anomaly_zeroImg (hgt wid : ℕ) (hh : 0 < hgt) (hw : 0 < wid) :
    detect_anomaly_opencv (zeroImg hgt wid) = (0, ⟨0, 0, 0⟩, "none") := by
  have hne : hgt * wid ≠ 0 := by positivity
  have hsz : ¬ ((zeroImg hgt wid).size = 0) := hne
  have hb : (zeroImg hgt wid).countHSV blackPred = hgt * wid := by
    rw [countHSV_zeroImg]
    rw [if_pos (show blackPred (0, 0, 0) = true from rfl)]
  have hy : (zeroImg hgt wid).countHSV yellowPred = 0 := by
    rw [countHSV_zeroImg]
    rw [if_neg (show ¬ (yellowPred (0, 0, 0) = true) by decide)]
  have hr : (zeroImg hgt wid).countHSV redPred = 0 := by
    rw [countHSV_zeroImg]
    rw [if_neg (show ¬ (redPred (0, 0, 0) = true) by decide)]
  have hdiv : ((hgt * wid : ℕ) : ℚ) / ((hgt * wid : ℕ) : ℚ) = 1 :=
    div_self (Nat.cast_ne_zero.mpr hne)
  unfold detect_anomaly_opencv
  rw [if_neg hsz]
  rw [hb, hy, hr]
  simp only [show (zeroImg hgt wid).size = hgt * wid from rfl]
  rw [hdiv]
  norm_num [pyRound3, roundHalfEven]

/-- C9: on an all-zero (fully dark) frame the anomaly scorer returns score
exactly 0 with reason "none", and the semantic analyzer fails the validity
gate and returns the all-unknown result (for any continuation of the
analysis past the gate). -/
theorem c9_all_zero_frame_dark_and_unknown
    (analyzeValid : Img → ColorMasks → RegionRatios → AnalysisResult)
    (hgt wid : ℕ) (hh : 0 < hgt) (hw : 0 < wid) :
    detect_anomaly_opencv (zeroImg hgt wid) = (0, ⟨0, 0, 0⟩, "none") ∧
    analyze_frame analyzeValid (zeroImg hgt wid) = unknownResult := by
  refine ⟨detect_anomaly_zeroImg hgt wid hh hw, ?_⟩
  have hne : hgt * wid ≠ 0 := by positivity
  have hsz : ¬ ((zeroImg hgt wid).size = 0) := hne
  have hraw_t : ∀ a b, a < hgt → b < wid →
      rawMask (zeroImg hgt wid) toothWhitePred a b = false := by
    intro a b _ _
    unfold rawMask zeroImg
    dsimp only
    rw [bgr2hsv_zero]
    decide
  have hraw_g : ∀ a b, a < hgt → b < wid →
      rawMask (zeroImg hgt wid) gumPinkPred a b = false := by
    intro a b _ _
    unfold rawMask zeroImg
    dsimp only
    rw [bgr2hsv_zero]
    decide
  have ht0 : countMask (zeroImg hgt wid).hgt (zeroImg hgt wid).wid
      (extract_color_masks (zeroImg hgt wid)).tooth_white = 0 :=
    countMask_eq_zero fun a b ha hb => denoise_of_false hraw_t a b ha hb
  have hg0 : countMask (zeroImg hgt wid).hgt (zeroImg hgt wid).wid
      (extract_color_masks (zeroImg hgt wid)).gum_pink = 0 :=
    countMask_eq_zero fun a b ha hb => denoise_of_false hraw_g a b ha hb
  have hvalid : is_valid_oral_image
      (calculate_region_ratios (zeroImg hgt wid) (extract_color_masks (zeroImg hgt wid))) =
      false := by
    unfold is_valid_oral_image calculate_region_ratios
    rw [if_neg hsz]
    dsimp only
    rw [ht0, hg0]
    norm_num
  unfold analyze_frame
  rw [if_neg hsz]
  dsimp only
  rw [if_pos hvalid]

/-- C9 witness: the scorer and analyzer outcomes at a concrete 2×2 all-zero
frame. -/
theorem c9_all_zero_frame_dark_and_unknown_witness :
    detect_anomaly_opencv (zeroImg 2 2) = (0, ⟨0, 0, 0⟩, "none") ∧
    analyze_frame (fun _ _ _ => unknownResult) (zeroImg 2 2) = unknownResult :=
  c9_all_zero_frame_dark_and_unknown (fun _ _ _ => unknownResult) 2 2
    (by decide) (by decide)

end OralAlg
